import Mathlib

/-!
Verification development for the DynamicVideoPlayer component
(src/web/src/components/player/dynamic/DynamicVideoPlayer.tsx).

The component is shallowly embedded: numbers carried by the player
(timestamps, annotation offsets, aspect ratios) are modelled as rationals,
JavaScript `undefined`/`null` as `Option`, and the reactive hook machinery
(useMemo with a dependency list, useEffect with a dependency list) as an
explicit state record threaded through a list of render inputs.

The class `DynamicVideoController` is imported by the component from a file
that is not part of the sources; its operations are modelled from the
specification (section 4.1) and are marked as such in their doc comments.
-/

namespace Frigate.DynamicVideo

/-- Per-camera detection frame geometry and annotation offset, as consumed by
the component: `config.cameras[camera].detect.{width,height,annotation_offset}`.
The offset is in milliseconds. -/
structure Detect where
  width : Rat
  height : Rat
  annotation_offset : Rat
deriving DecidableEq, Repr

/-- The slice of a camera's configuration used by the component. -/
structure CameraConfig where
  detect : Detect
deriving DecidableEq, Repr

/-- The slice of the Frigate configuration used by the component: the camera
table, modelled as an association list so that configuration values can be
compared for equality (the React dependency comparison). -/
structure FrigateConfig where
  cameras : List (String × CameraConfig)
deriving DecidableEq, Repr

/-- Looking a camera up in the configuration; `none` models a camera name
that is absent from `config.cameras`. -/
def FrigateConfig.lookup (cfg : FrigateConfig) (camera : String) :
    Option CameraConfig :=
  (cfg.cameras.find? (fun p => p.1 == camera)).map (fun p => p.2)

/-- The requested time range, in epoch seconds (`timeRange` prop). -/
structure TimeRange where
  start : Nat
  «end» : Nat
deriving DecidableEq, Repr

/-- Recording metadata records are opaque to this component: it only
aggregates a list of them and forwards it to the controller. -/
structure Recording where
  id : Nat
deriving DecidableEq, Repr

/-- The playback mode of the controller. -/
inductive PlayerMode where
  | playback
  | scrubbing
deriving DecidableEq, Repr

/-- The state of a `DynamicVideoController`, as constructed by the component:
camera name, annotation offset in seconds, and the playback mode passed at
construction. References to the media element and the preview controller are
left abstract; the effects on them are captured by `SeekCmd` values. -/
structure DynamicVideoController where
  camera : String
  annotationOffset : Rat
  playerMode : PlayerMode
deriving DecidableEq, Repr

/-- The externally visible effect of a seek command issued by the controller:
either a seek on the full media element (with intent to autoplay) or a seek
delegated to the preview controller. -/
inductive SeekCmd where
  | mediaSeek (target : Rat) (autoplay : Bool)
  | previewSeek (target : Rat)
deriving DecidableEq, Repr

/-- Modelled from the spec: the DynamicVideoController source file is not
among the sources. Section 4.1: `getProgress(rawPlayerTime)` is the pure
translation returning `rawPlayerTime + annotationOffset`, with no side
effects. -/
def DynamicVideoController.getProgress (c : DynamicVideoController)
    (rawPlayerTime : Rat) : Rat :=
  rawPlayerTime + c.annotationOffset

/-- Modelled from the spec: the DynamicVideoController source file is not
among the sources. Section 4.1: `seekToTimestamp(timestamp, autoplayIntent)`
issues, when the current mode is `playback`, a seek on the media element to
the timestamp adjusted by the annotation offset together with the autoplay
intent (the spec scenario fixes the adjustment as `timestamp + offset`:
offset 5 and timestamp 1500 seek to 1505); when the mode is `scrubbing` it
delegates the seek to the PreviewController. -/
def DynamicVideoController.seekToTimestamp (c : DynamicVideoController)
    (timestamp : Rat) (autoplayIntent : Bool) : SeekCmd :=
  match c.playerMode with
  | PlayerMode.playback =>
      SeekCmd.mediaSeek (timestamp + c.annotationOffset) autoplayIntent
  | PlayerMode.scrubbing => SeekCmd.previewSeek timestamp

/-- The controller construction performed by the component once config, the
media element and the preview controller are available:
`new DynamicVideoController(camera, playerRef.current, previewController,
(config.cameras[camera]?.detect?.annotation_offset || 0) / 1000,
isScrubbing ? "scrubbing" : "playback", setFocusedItem)`. -/
def mkController (camera : String) (cfg : FrigateConfig)
    (isScrubbing : Bool) : DynamicVideoController :=
  { camera := camera
    annotationOffset :=
      (((cfg.lookup camera).map
        (fun cc => cc.detect.annotation_offset)).getD 0) / 1000
    playerMode :=
      if isScrubbing then PlayerMode.scrubbing else PlayerMode.playback }

/-- The sizing class computed by the `grow` memo. `none` models the JavaScript
TypeError raised when the camera is absent from `config.cameras` (the memo
indexes without an optional chain). -/
def grow (config : Option FrigateConfig) (camera : String) : Option String :=
  match config with
  | none => some "aspect-video"
  | some cfg =>
    match cfg.lookup camera with
    | none => none
    | some cc =>
      let ar := cc.detect.width / cc.detect.height
      if ar > 2 then some ""
      else if ar < 16 / 9 then some "aspect-tall"
      else some "aspect-video"

/-- The class applied to the wrapper of the full (HLS) player:
`isScrubbing || isLoading ? "hidden" : "visible"`. -/
def fullPlayerWrapperClass (isScrubbing isLoading : Bool) : String :=
  if isScrubbing || isLoading then "hidden" else "visible"

/-- The visibility class applied to the preview player:
`isScrubbing || isLoading ? "visible" : "hidden"`. -/
def previewPlayerClass (isScrubbing isLoading : Bool) : String :=
  if isScrubbing || isLoading then "visible" else "hidden"

/-- The full player is visible when its wrapper carries the class visible. -/
abbrev fullPlayerVisible (isScrubbing isLoading : Bool) : Prop :=
  fullPlayerWrapperClass isScrubbing isLoading = "visible"

/-- The preview player is visible when it carries the class visible. -/
abbrev previewPlayerVisible (isScrubbing isLoading : Bool) : Prop :=
  previewPlayerClass isScrubbing isLoading = "visible"

/-- The media source locator built by the component:
`${apiHost}vod/${camera}/start/${timeRange.start}/end/${timeRange.end}/master.m3u8`. -/
def sourceFor (apiHost camera : String) (tr : TimeRange) : String :=
  apiHost ++ "vod/" ++ camera ++ "/start/" ++ toString tr.start ++
    "/end/" ++ toString tr.«end» ++ "/master.m3u8"

/-- The `onPlayerLoaded` callback: returns the seek command issued on the
controller, or `none` when the callback returns early
(`if (!controller || !startTimestamp) return;` — in JavaScript a
`startTimestamp` of 0 is falsy and also returns early). -/
def onPlayerLoaded (controller : Option DynamicVideoController)
    (startTimestamp : Option Rat) : Option SeekCmd :=
  match controller, startTimestamp with
  | some c, some ts =>
      if ts = 0 then none else some (c.seekToTimestamp ts true)
  | _, _ => none

/-- The `onTimeUpdate` callback: returns the timestamp forwarded to
`onTimestampUpdate`, or `none` when the callback returns early
(`if (!controller || !onTimestampUpdate || time == 0) return;`).
`hasTimestampCallback` records whether the optional `onTimestampUpdate` prop
was provided. -/
def onTimeUpdate (controller : Option DynamicVideoController)
    (hasTimestampCallback : Bool) (time : Rat) : Option Rat :=
  match controller with
  | none => none
  | some c =>
    if hasTimestampCallback = false ∨ time = 0 then none
    else some (c.getProgress time)

/-- The actions performed by one run of the playback effect
(`useEffect(..., [controller, recordings])`) when it does not return early:
whether (and to what) the media element autoplay attribute is set, the new
source locator, the loading flag written, and the recording list passed to
`controller.newPlayback`. -/
structure NewPlaybackActions where
  autoplaySet : Option Bool
  source : String
  loading : Bool
  recordingsArg : List Recording
deriving DecidableEq, Repr

/-- One run of the playback effect body. `none` models the early return
`if (!controller || !recordings) return;`. Otherwise the effect sets the
autoplay attribute (only when `playerRef.current` is non-null), recomputes
the source locator for the current time range, sets loading to true and
calls `controller.newPlayback({recordings: recordings ?? []})`. -/
def newPlaybackEffect (controller : Option DynamicVideoController)
    (recordings : Option (List Recording)) (apiHost camera : String)
    (tr : TimeRange) (isScrubbing playerPresent : Bool) :
    Option NewPlaybackActions :=
  if controller.isNone ∨ recordings.isNone then none
  else some
    { autoplaySet := if playerPresent then some (!isScrubbing) else none
      source := sourceFor apiHost camera tr
      loading := true
      recordingsArg := recordings.getD [] }

/-- The orchestrator-level state observed across a sequence of player
lifecycle events and effect runs: the published controller, the mount's
requested start timestamp, the ambient props, and the accumulated outputs
(source, loading flag, autoplay attribute, the `newPlayback` calls issued,
and the seek commands issued through the controller). -/
structure OrchState where
  controller : Option DynamicVideoController
  startTimestamp : Option Rat
  apiHost : String
  camera : String
  isScrubbing : Bool
  playerPresent : Bool
  source : String
  isLoading : Bool
  autoplay : Option Bool
  playbackCalls : List (List Recording)
  seeks : List SeekCmd
deriving DecidableEq, Repr

/-- Handling of one loaded lifecycle event from the full player: the
`onPlayerLoaded` callback runs, and any seek command it issues on the
controller is recorded. -/
def stepLoaded (s : OrchState) : OrchState :=
  match onPlayerLoaded s.controller s.startTimestamp with
  | none => s
  | some cmd => { s with seeks := s.seeks ++ [cmd] }

/-- One run of the playback effect (triggered when its dependencies
`[controller, recordings]` change, i.e. when the time range changes — the
recording fetch restarts at `none` — or when the fetch resolves), applied to
the orchestrator state. -/
def stepRecordings (s : OrchState) (tr : TimeRange)
    (recordings : Option (List Recording)) : OrchState :=
  match newPlaybackEffect s.controller recordings s.apiHost s.camera tr
      s.isScrubbing s.playerPresent with
  | none => s
  | some a =>
    { s with
      autoplay := match a.autoplaySet with
        | some b => some b
        | none => s.autoplay
      source := a.source
      isLoading := a.loading
      playbackCalls := s.playbackCalls ++ [a.recordingsArg] }

/-- The inputs of one render of the component, as far as the controller memo
and the controller-ready effect are concerned: the camera prop, the three
asynchronously resolving values, and the `isScrubbing` prop (which is
deliberately absent from the memo dependency list in the source). -/
structure RenderInput where
  camera : String
  config : Option FrigateConfig
  player : Option Nat
  prevCtrl : Option Nat
  isScrubbing : Bool
deriving DecidableEq, Repr

/-- The dependency list of the controller memo:
`[camera, config, playerRef.current, previewController]`. -/
def depsOf (i : RenderInput) :
    String × Option FrigateConfig × Option Nat × Option Nat :=
  (i.camera, i.config, i.player, i.prevCtrl)

/-- A constructed controller object: the construction result together with a
fresh identity, modelling JavaScript object identity (two constructions are
never `Object.is`-equal even when their fields coincide). -/
structure ControllerObj where
  id : Nat
  ctrl : DynamicVideoController
deriving DecidableEq, Repr

/-- The hook state of the component across renders: the cached dependency
list and value of the controller memo, the dependency value the
controller-ready effect last ran with (`none` before the first render), a
fresh-identity counter, and the accumulated `onControllerReady` invocations
(recorded by controller identity). -/
structure CompState where
  memoDeps : Option (String × Option FrigateConfig × Option Nat × Option Nat)
  memoVal : Option ControllerObj
  effectLast : Option (Option ControllerObj)
  nextId : Nat
  readyFires : List Nat
deriving DecidableEq, Repr

/-- The hook state at mount time. -/
def initState : CompState :=
  { memoDeps := none, memoVal := none, effectLast := none, nextId := 0,
    readyFires := [] }

/-- The body of the controller memo: return undefined unless config, the
media element and the preview controller are all available, otherwise
construct a fresh `DynamicVideoController` from the current render inputs. -/
def memoCompute (s : CompState) (i : RenderInput) :
    Option ControllerObj × Nat :=
  match i.config, i.player, i.prevCtrl with
  | some cfg, some _, some _ =>
      (some { id := s.nextId, ctrl := mkController i.camera cfg i.isScrubbing },
        s.nextId + 1)
  | _, _, _ => (none, s.nextId)

/-- One render of the component: the controller memo is re-evaluated only
when its dependency list changed, and the controller-ready effect runs after
the render whenever its dependency `[controller]` changed (always on the
first render), invoking `onControllerReady(controller)` when the controller
is defined. -/
def renderStep (s : CompState) (i : RenderInput) : CompState :=
  let p :=
    if s.memoDeps = some (depsOf i) then (s.memoVal, s.nextId)
    else memoCompute s i
  let s1 : CompState :=
    { memoDeps := some (depsOf i), memoVal := p.1, effectLast := s.effectLast,
      nextId := p.2, readyFires := s.readyFires }
  if s1.effectLast = some s1.memoVal then s1
  else
    { s1 with
      effectLast := some s1.memoVal
      readyFires := s1.readyFires ++
        (match s1.memoVal with
          | some c => [c.id]
          | none => []) }

/-- Running the component over a sequence of renders from the mount state. -/
def runRenders (inputs : List RenderInput) : CompState :=
  inputs.foldl renderStep initState

/-! Concrete inputs used by witnesses and counterexamples. -/

/-- A sample camera configuration: 1280x720 detection frame, annotation
offset of 5000 ms (5 s). -/
def ccFront : CameraConfig :=
  { detect := { width := 1280, height := 720, annotation_offset := 5000 } }

/-- A sample configuration with one camera named front. -/
def cfgFront : FrigateConfig :=
  { cameras := [("front", ccFront)] }

/-- A sample controller in playback mode with annotation offset 5 s. -/
def ctrlOffset5 : DynamicVideoController :=
  { camera := "front", annotationOffset := 5,
    playerMode := PlayerMode.playback }

/-- A render input where none of config, media element and preview
controller have resolved yet. -/
def riNotReady : RenderInput :=
  { camera := "front", config := none, player := none, prevCtrl := none,
    isScrubbing := false }

/-- A render input where config, media element and preview controller are
all available and `isScrubbing` is false. -/
def riReady : RenderInput :=
  { camera := "front", config := some cfgFront, player := some 1,
    prevCtrl := some 1, isScrubbing := false }

/-- The same render input as `riReady` except that `isScrubbing` is true:
the controller memo dependency list is unchanged. -/
def riReadyScrub : RenderInput :=
  { camera := "front", config := some cfgFront, player := some 1,
    prevCtrl := some 1, isScrubbing := true }

/-- An orchestrator state with the sample controller published, a requested
start timestamp of 1500, and no effects performed yet. -/
def orchStart : OrchState :=
  { controller := some ctrlOffset5, startTimestamp := some 1500,
    apiHost := "http://frigate/", camera := "front", isScrubbing := false,
    playerPresent := true, source := "", isLoading := false, autoplay := none,
    playbackCalls := [], seeks := [] }

/-- Two consecutive playback sessions: range A resolves with recordings
recsA, then range B resolves with recordings recsB, each running the
playback effect once, starting from a state with the controller published
and no effects performed yet. -/
def twoRangeScenario (c : DynamicVideoController) (ts : Rat)
    (apiHost camera : String) (playerPresent : Bool) (trA trB : TimeRange)
    (recsA recsB : List Recording) : OrchState :=
  stepRecordings
    (stepRecordings
      { controller := some c, startTimestamp := some ts, apiHost := apiHost,
        camera := camera, isScrubbing := false,
        playerPresent := playerPresent, source := "", isLoading := false,
        autoplay := none, playbackCalls := [], seeks := [] }
      trA (some recsA))
    trB (some recsB)

/-! Claim theorems. -/

/-- C4: at every instant the full player is visible iff not scrubbing and
not loading, the preview player is visible iff scrubbing or loading, and
consequently exactly one of the two players is visible. -/
theorem C4_visibility :
    ∀ isScrubbing isLoading : Bool,
      (fullPlayerVisible isScrubbing isLoading ↔
        (isScrubbing = false ∧ isLoading = false)) ∧
      (previewPlayerVisible isScrubbing isLoading ↔
        (isScrubbing = true ∨ isLoading = true)) ∧
      (fullPlayerVisible isScrubbing isLoading ↔
        ¬ previewPlayerVisible isScrubbing isLoading) := by
  decide

/-- C5: for every annotation offset and raw player time, `getProgress`
returns the raw time plus the offset, where the offset the component
installs at construction is the camera's configured `annotation_offset`
in milliseconds divided by 1000. -/
theorem C5_getProgress_is_time_plus_offset (cfg : FrigateConfig)
    (camera : String) (cc : CameraConfig) (isScrubbing : Bool) (t : Rat)
    (h : cfg.lookup camera = some cc) :
    (mkController camera cfg isScrubbing).getProgress t =
      t + cc.detect.annotation_offset / 1000 := by
  simp [mkController, DynamicVideoController.getProgress, h]

/-- C5 witness: camera front with a 5000 ms offset and raw time 100. -/
theorem C5_witness :
    cfgFront.lookup "front" = some ccFront ∧
    (mkController "front" cfgFront false).getProgress 100 =
      100 + ccFront.detect.annotation_offset / 1000 :=
  ⟨by decide,
   C5_getProgress_is_time_plus_offset cfgFront "front" ccFront false 100
     (by decide)⟩

/-- C8: a time-update event with raw time 0 is suppressed and never reaches
`onTimestampUpdate`; any non-zero raw time (with the controller constructed
and the optional callback provided, as the guard in the source requires) is
forwarded translated through `getProgress`. -/
theorem C8_timeUpdate_zero_suppressed_nonzero_translated :
    (∀ (controller : Option DynamicVideoController)
        (hasTimestampCallback : Bool),
      onTimeUpdate controller hasTimestampCallback 0 = none) ∧
    (∀ (c : DynamicVideoController) (t : Rat), t ≠ 0 →
      onTimeUpdate (some c) true t = some (c.getProgress t)) := by
  constructor
  · intro controller hasTimestampCallback
    cases controller <;> simp [onTimeUpdate]
  · intro c t ht
    simp [onTimeUpdate, ht]

/-- C8 witness: raw time 30 with the sample controller is forwarded as
`getProgress 30`. -/
theorem C8_witness :
    (30 : Rat) ≠ 0 ∧
    onTimeUpdate (some ctrlOffset5) true 30 =
      some (ctrlOffset5.getProgress 30) :=
  ⟨by norm_num,
   C8_timeUpdate_zero_suppressed_nonzero_translated.2 ctrlOffset5 30
     (by norm_num)⟩

/-- C9: for a camera present in the configuration (with a positive
detection-frame height), the sizing class is the wide unconstrained-height
class when width/height is strictly greater than 2, the tall class when it
is strictly less than 16/9, and the standard video-aspect class otherwise;
the memo is a pure function of (camera, config), so it recomputes to exactly
these values on every change of those inputs. -/
theorem C9_grow_cases (cfg : FrigateConfig) (camera : String)
    (cc : CameraConfig) (h : cfg.lookup camera = some cc)
    (_hh : 0 < cc.detect.height) :
    (cc.detect.width / cc.detect.height > 2 →
      grow (some cfg) camera = some "") ∧
    (cc.detect.width / cc.detect.height < 16 / 9 →
      grow (some cfg) camera = some "aspect-tall") ∧
    (¬ cc.detect.width / cc.detect.height > 2 →
      ¬ cc.detect.width / cc.detect.height < 16 / 9 →
      grow (some cfg) camera = some "aspect-video") := by
  refine ⟨?_, ?_, ?_⟩
  · intro hgt
    simp [grow, h, hgt]
  · intro hlt
    have hng : ¬ cc.detect.width / cc.detect.height > 2 := by
      intro hgt
      have : (16 : Rat) / 9 < 2 := by norm_num
      linarith
    simp [grow, h, hng, hlt]
  · intro hng hnl
    simp [grow, h, hng, hnl]

/-- C9 witness: 1280x720 has ratio exactly 16/9, which is neither greater
than 2 nor less than 16/9, so the class is the standard video aspect. -/
theorem C9_witness :
    cfgFront.lookup "front" = some ccFront ∧
    (0 : Rat) < ccFront.detect.height ∧
    ¬ ccFront.detect.width / ccFront.detect.height > 2 ∧
    ¬ ccFront.detect.width / ccFront.detect.height < 16 / 9 ∧
    grow (some cfgFront) "front" = some "aspect-video" :=
  ⟨by decide, by norm_num [ccFront], by norm_num [ccFront],
   by norm_num [ccFront],
   (C9_grow_cases cfgFront "front" ccFront (by decide)
       (by norm_num [ccFront])).2.2
     (by norm_num [ccFront]) (by norm_num [ccFront])⟩

/-- C6 counterexample: the claim states that on a time range change with the
recording fetch not yet resolved, the effect still recomputes the source,
sets loading, and calls `newPlayback` with the empty-list default. In the
code the effect returns early when `recordings` is undefined, so nothing at
all happens: the state (source, loading flag, autoplay attribute, the list
of `newPlayback` calls) is unchanged. -/
theorem C6_counterexample :
    stepRecordings orchStart { start := 1000, «end» := 2000 } none =
      orchStart := by
  rfl

/-- C6 as amended: when the controller exists and the recording fetch has
resolved, the effect sets the full player autoplay attribute to the negation
of isScrubbing (when the media element is present), recomputes the locator
as {base}vod/{camera}/start/{start}/end/{end}/master.m3u8 for the current
range, sets loading to true and calls `newPlayback` with the resolved
recordings; when the fetch has not resolved, the effect returns early and
performs no action, so the empty-list default is unreachable. -/
theorem C6_amended_effect_actions (c : DynamicVideoController)
    (recs : List Recording) (apiHost camera : String) (tr : TimeRange)
    (isScrubbing playerPresent : Bool) :
    newPlaybackEffect (some c) (some recs) apiHost camera tr isScrubbing
        playerPresent =
      some { autoplaySet := if playerPresent then some (!isScrubbing)
                            else none
             source := apiHost ++ "vod/" ++ camera ++ "/start/" ++
               toString tr.start ++ "/end/" ++ toString tr.«end» ++
               "/master.m3u8"
             loading := true
             recordingsArg := recs } ∧
    newPlaybackEffect (some c) none apiHost camera tr isScrubbing
        playerPresent = none := by
  constructor
  · simp [newPlaybackEffect, sourceFor]
  · simp [newPlaybackEffect]

/-- C7: when the full player reports the loaded lifecycle event and a
non-zero start timestamp was requested for this mount, the handler issues
exactly one seek on the controller, to that timestamp with autoplay intent
true; with annotation offset 5 and startTimestamp 1500 (playback mode) the
resulting media seek target is 1505 with autoplay true. Time-update events
never issue seeks, so this happens once per load, not on every frame. -/
theorem C7_loaded_single_seek (s : OrchState) (c : DynamicVideoController)
    (ts : Rat) (hc : s.controller = some c)
    (hts : s.startTimestamp = some ts) (hne : ts ≠ 0) :
    (stepLoaded s).seeks = s.seeks ++ [c.seekToTimestamp ts true] ∧
    (c.playerMode = PlayerMode.playback → c.annotationOffset = 5 →
      ts = 1500 →
      c.seekToTimestamp ts true = SeekCmd.mediaSeek 1505 true) := by
  constructor
  · simp [stepLoaded, onPlayerLoaded, hc, hts, hne]
  · intro hm ho h15
    subst h15
    simp [DynamicVideoController.seekToTimestamp, hm, ho]
    norm_num

/-- C7 witness: the concrete spec scenario, offset 5 s and start timestamp
1500. -/
theorem C7_witness :
    orchStart.controller = some ctrlOffset5 ∧
    orchStart.startTimestamp = some 1500 ∧
    (1500 : Rat) ≠ 0 ∧
    ((stepLoaded orchStart).seeks =
        orchStart.seeks ++ [ctrlOffset5.seekToTimestamp 1500 true] ∧
      (ctrlOffset5.playerMode = PlayerMode.playback →
        ctrlOffset5.annotationOffset = 5 → (1500 : Rat) = 1500 →
        ctrlOffset5.seekToTimestamp 1500 true =
          SeekCmd.mediaSeek 1505 true)) :=
  ⟨rfl, rfl, by norm_num,
   C7_loaded_single_seek orchStart ctrlOffset5 1500 rfl rfl (by norm_num)⟩

/-- C2 counterexample: the claim states that when range A has been
superseded by range B (both `newPlayback` calls issued) and A's stale loaded
event then arrives, no seek is issued. In the code the loaded handler
carries no session tag: after both sessions were issued, the arriving loaded
event still issues a seek (to the mount's start timestamp 1500, adjusted by
the 5 s offset, with autoplay true). -/
theorem C2_counterexample :
    (stepLoaded (twoRangeScenario ctrlOffset5 1500 "http://frigate/" "front"
        true { start := 1000, «end» := 2000 } { start := 2000, «end» := 3000 }
        [{ id := 1 }] [{ id := 2 }])).seeks ≠ [] ∧
    (stepLoaded (twoRangeScenario ctrlOffset5 1500 "http://frigate/" "front"
        true { start := 1000, «end» := 2000 } { start := 2000, «end» := 3000 }
        [{ id := 1 }] [{ id := 2 }])).seeks =
      [SeekCmd.mediaSeek 1505 true] := by
  have h15 : (1500 : Rat) ≠ 0 := by norm_num
  have hseeks : (stepLoaded (twoRangeScenario ctrlOffset5 1500
      "http://frigate/" "front" true { start := 1000, «end» := 2000 }
      { start := 2000, «end» := 3000 }
      [{ id := 1 }] [{ id := 2 }])).seeks = [SeekCmd.mediaSeek 1505 true] := by
    simp [twoRangeScenario, stepRecordings, newPlaybackEffect, stepLoaded,
      onPlayerLoaded, h15, ctrlOffset5, DynamicVideoController.seekToTimestamp]
    norm_num
  exact ⟨by rw [hseeks]; simp, hseeks⟩

/-- C2 as amended: a `newPlayback` for range B does supersede range A's
state — after the two effect runs the active source is B's locator and both
recording lists were handed to the controller in order — but stale lifecycle
events are not dropped: the loaded handler is session-agnostic, so A's stale
loaded event arriving after B still issues exactly one seek, to the mount's
start timestamp with autoplay intent true, exactly as a fresh loaded event
would. -/
theorem C2_amended_stale_loaded_still_seeks (c : DynamicVideoController)
    (ts : Rat) (apiHost camera : String) (playerPresent : Bool)
    (trA trB : TimeRange) (recsA recsB : List Recording) (hts : ts ≠ 0) :
    (twoRangeScenario c ts apiHost camera playerPresent trA trB recsA
        recsB).playbackCalls = [recsA, recsB] ∧
    (twoRangeScenario c ts apiHost camera playerPresent trA trB recsA
        recsB).source = sourceFor apiHost camera trB ∧
    (stepLoaded (twoRangeScenario c ts apiHost camera playerPresent trA trB
        recsA recsB)).seeks = [c.seekToTimestamp ts true] := by
  refine ⟨?_, ?_, ?_⟩ <;>
    simp [twoRangeScenario, stepRecordings, newPlaybackEffect, stepLoaded,
      onPlayerLoaded, hts]

/-- C2 amended witness: the concrete ranges 1000-2000 and 2000-3000 with
start timestamp 1500. -/
theorem C2_amended_witness :
    (1500 : Rat) ≠ 0 ∧
    ((twoRangeScenario ctrlOffset5 1500 "http://frigate/" "front" true
        { start := 1000, «end» := 2000 } { start := 2000, «end» := 3000 }
        [{ id := 1 }] [{ id := 2 }]).playbackCalls =
      [[{ id := 1 }], [{ id := 2 }]] ∧
    (twoRangeScenario ctrlOffset5 1500 "http://frigate/" "front" true
        { start := 1000, «end» := 2000 } { start := 2000, «end» := 3000 }
        [{ id := 1 }] [{ id := 2 }]).source =
      sourceFor "http://frigate/" "front" { start := 2000, «end» := 3000 } ∧
    (stepLoaded (twoRangeScenario ctrlOffset5 1500 "http://frigate/" "front"
        true { start := 1000, «end» := 2000 } { start := 2000, «end» := 3000 }
        [{ id := 1 }] [{ id := 2 }])).seeks =
      [ctrlOffset5.seekToTimestamp 1500 true]) :=
  ⟨by norm_num,
   C2_amended_stale_loaded_still_seeks ctrlOffset5 1500 "http://frigate/"
     "front" true { start := 1000, «end» := 2000 }
     { start := 2000, «end» := 3000 } [{ id := 1 }] [{ id := 2 }]
     (by norm_num)⟩

/-- C3 counterexample: the claim states that a mode toggle between two calls
changes which player the next seek is routed to (while scrubbing, the full
media element is never touched). In the code the mode is sampled once at
controller construction and `isScrubbing` is not a dependency of the
controller memo: after a first render in playback mode and a re-render with
`isScrubbing` now true (equal memo dependencies), the published controller
still routes the next seek to the full media element. -/
theorem C3_counterexample :
    riReadyScrub.isScrubbing = true ∧
    (runRenders [riReady, riReadyScrub]).memoVal.map
        (fun c => c.ctrl.seekToTimestamp 1500 true) =
      some (SeekCmd.mediaSeek 1505 true) := by
  constructor
  · rfl
  · have hrun : (runRenders [riReady, riReadyScrub]).memoVal =
        some { id := 0, ctrl := mkController "front" cfgFront false } := by
      simp [runRenders, renderStep, memoCompute, initState, riReady,
        riReadyScrub, depsOf]
    rw [hrun]
    simp [mkController, cfgFront, ccFront, FrigateConfig.lookup,
      DynamicVideoController.seekToTimestamp]
    norm_num

/-- C3 as amended: `seekToTimestamp` consults the mode stored in the
controller, which is sampled from `isScrubbing` once at construction;
because `isScrubbing` is not a memo dependency, any re-render with an
unchanged dependency list — in particular a bare mode toggle — leaves the
memoized controller (and hence its stored mode) unchanged, and the routing
of the next seek follows that stored mode, not the live flag: playback mode
always seeks the media element, scrubbing mode always delegates to the
preview controller. -/
theorem C3_amended_mode_frozen_at_construction (s : CompState)
    (i : RenderInput) (ts : Rat) (autoplayIntent : Bool)
    (h : s.memoDeps = some (depsOf i)) :
    (renderStep s i).memoVal = s.memoVal ∧
    (∀ c : DynamicVideoController, c.playerMode = PlayerMode.playback →
      c.seekToTimestamp ts autoplayIntent =
        SeekCmd.mediaSeek (ts + c.annotationOffset) autoplayIntent) ∧
    (∀ c : DynamicVideoController, c.playerMode = PlayerMode.scrubbing →
      c.seekToTimestamp ts autoplayIntent = SeekCmd.previewSeek ts) := by
  refine ⟨?_, ?_, ?_⟩
  · simp only [renderStep, h, if_pos]
    split <;> rfl
  · intro c hm
    simp [DynamicVideoController.seekToTimestamp, hm]
  · intro c hm
    simp [DynamicVideoController.seekToTimestamp, hm]

/-- C3 amended witness: one ready render followed by a re-render with
`isScrubbing` toggled, equal memo dependencies. -/
theorem C3_amended_witness :
    (runRenders [riReady]).memoDeps = some (depsOf riReadyScrub) ∧
    ((renderStep (runRenders [riReady]) riReadyScrub).memoVal =
        (runRenders [riReady]).memoVal ∧
      (∀ c : DynamicVideoController, c.playerMode = PlayerMode.playback →
        c.seekToTimestamp 1500 true =
          SeekCmd.mediaSeek (1500 + c.annotationOffset) true) ∧
      (∀ c : DynamicVideoController, c.playerMode = PlayerMode.scrubbing →
        c.seekToTimestamp 1500 true = SeekCmd.previewSeek 1500)) :=
  ⟨by decide,
   C3_amended_mode_frozen_at_construction (runRenders [riReady]) riReadyScrub
     1500 true (by decide)⟩

/-- A memo dependency tuple in which config, the media element or the
preview controller is absent. -/
def depsNotReady
    (d : String × Option FrigateConfig × Option Nat × Option Nat) : Prop :=
  d.2.1 = none ∨ d.2.2.1 = none ∨ d.2.2.2 = none

/-- Invariant of the hook state while the three construction preconditions
have never yet been simultaneously satisfied: no controller was constructed,
no identity was allocated, `onControllerReady` never fired, the
controller-ready effect has at most seen an undefined controller, and any
cached dependency list lacks one of the three inputs. -/
def PreInv (s : CompState) : Prop :=
  s.memoVal = none ∧ s.nextId = 0 ∧ s.readyFires = [] ∧
  (s.effectLast = none ∨ s.effectLast = some none) ∧
  (s.memoDeps = none ∨ ∃ d, s.memoDeps = some d ∧ depsNotReady d)

theorem preInv_init : PreInv initState :=
  ⟨rfl, rfl, rfl, Or.inl rfl, Or.inl rfl⟩

theorem memoCompute_notReady (s : CompState) (i : RenderInput)
    (hi : i.config = none ∨ i.player = none ∨ i.prevCtrl = none) :
    memoCompute s i = (none, s.nextId) := by
  cases hc : i.config <;> cases hp : i.player <;> cases hv : i.prevCtrl <;>
    simp_all [memoCompute]

theorem renderStep_notReady (s : CompState) (i : RenderInput)
    (hs : PreInv s)
    (hi : i.config = none ∨ i.player = none ∨ i.prevCtrl = none) :
    PreInv (renderStep s i) := by
  obtain ⟨h1, h2, h3, h4, _h5⟩ := hs
  have hm : memoCompute s i = (none, s.nextId) := memoCompute_notReady s i hi
  have hnr : depsNotReady (depsOf i) := by
    simpa [depsNotReady, depsOf] using hi
  rcases h4 with h4 | h4 <;>
    by_cases hd : s.memoDeps = some (depsOf i) <;>
      refine ⟨?_, ?_, ?_, ?_, Or.inr ⟨depsOf i, ?_, hnr⟩⟩ <;>
        simp [renderStep, hm, hd, h1, h2, h3, h4]

theorem runRenders_preInv :
    ∀ (pre : List RenderInput) (s : CompState), PreInv s →
      (∀ i ∈ pre, i.config = none ∨ i.player = none ∨ i.prevCtrl = none) →
      PreInv (pre.foldl renderStep s) := by
  intro pre
  induction pre with
  | nil => intro s hs _; exact hs
  | cons a t ih =>
    intro s hs h
    rw [List.foldl_cons]
    exact ih (renderStep s a)
      (renderStep_notReady s a hs (h a (List.mem_cons_self a t)))
      (fun i hi => h i (List.mem_cons_of_mem a hi))

theorem renderStep_ready (s : CompState) (k : RenderInput) (hs : PreInv s)
    (hc : k.config.isSome = true) (hp : k.player.isSome = true)
    (hv : k.prevCtrl.isSome = true) :
    (renderStep s k).memoDeps = some (depsOf k) ∧
    (renderStep s k).effectLast = some (renderStep s k).memoVal ∧
    (renderStep s k).readyFires.length = 1 := by
  obtain ⟨h1, h2, h3, h4, h5⟩ := hs
  obtain ⟨cfg, hcfg⟩ := Option.isSome_iff_exists.mp hc
  obtain ⟨pl, hpl⟩ := Option.isSome_iff_exists.mp hp
  obtain ⟨pv, hpv⟩ := Option.isSome_iff_exists.mp hv
  have hd : ¬ s.memoDeps = some (depsOf k) := by
    rcases h5 with h5 | ⟨d, hds, hnrd⟩
    · rw [h5]; simp
    · rw [hds]
      intro he
      injection he with he
      rcases hnrd with h | h | h <;> rw [he] at h <;>
        simp [depsOf, hcfg, hpl, hpv] at h
  have hm : memoCompute s k =
      (some { id := s.nextId,
              ctrl := mkController k.camera cfg k.isScrubbing },
        s.nextId + 1) := by
    unfold memoCompute
    rw [hcfg, hpl, hpv]
  have heff : ¬ s.effectLast =
      some (some { id := s.nextId,
                   ctrl := mkController k.camera cfg k.isScrubbing }) := by
    rcases h4 with h4 | h4 <;> rw [h4] <;> simp
  refine ⟨?_, ?_, ?_⟩ <;> simp [renderStep, hd, hm, heff, h3]

theorem renderStep_fix (s : CompState) (i : RenderInput)
    (hdeps : s.memoDeps = some (depsOf i))
    (heff : s.effectLast = some s.memoVal) :
    renderStep s i = s := by
  have : renderStep s i =
      { memoDeps := some (depsOf i), memoVal := s.memoVal,
        effectLast := s.effectLast, nextId := s.nextId,
        readyFires := s.readyFires } := by
    simp [renderStep, hdeps, heff]
  rw [this, ← hdeps]

theorem foldl_renderStep_const
    (d : String × Option FrigateConfig × Option Nat × Option Nat) :
    ∀ (post : List RenderInput) (s : CompState),
      s.memoDeps = some d → s.effectLast = some s.memoVal →
      (∀ i ∈ post, depsOf i = d) →
      post.foldl renderStep s = s := by
  intro post
  induction post with
  | nil => intro s _ _ _; rfl
  | cons a t ih =>
    intro s h1 h2 h3
    have ha : depsOf a = d := h3 a (List.mem_cons_self a t)
    rw [List.foldl_cons, renderStep_fix s a (by rw [ha]; exact h1) h2]
    exact ih s h1 h2 (fun i hi => h3 i (List.mem_cons_of_mem a hi))

/-- C1: across a component lifetime, `onControllerReady` fires exactly once:
over any render trace consisting of a prefix in which config, the media
element and the preview controller are never simultaneously available, one
render at which all three are available, and any number of further renders
whose memo dependencies re-resolve to values equal to that render's, no
controller is constructed and the callback never fires during the prefix,
and the callback has fired exactly once by the end of the whole trace. -/
theorem C1_controllerReady_fires_exactly_once (pre post : List RenderInput)
    (k : RenderInput)
    (hpre : ∀ i ∈ pre,
      i.config = none ∨ i.player = none ∨ i.prevCtrl = none)
    (hc : k.config.isSome = true) (hp : k.player.isSome = true)
    (hv : k.prevCtrl.isSome = true)
    (hpost : ∀ i ∈ post, depsOf i = depsOf k) :
    (runRenders pre).memoVal = none ∧
    (runRenders pre).readyFires = [] ∧
    (runRenders (pre ++ k :: post)).readyFires.length = 1 := by
  have hinv : PreInv (runRenders pre) :=
    runRenders_preInv pre initState preInv_init hpre
  refine ⟨hinv.1, hinv.2.2.1, ?_⟩
  have hstep := renderStep_ready (runRenders pre) k hinv hc hp hv
  have heq : runRenders (pre ++ k :: post) =
      post.foldl renderStep (renderStep (runRenders pre) k) := by
    unfold runRenders
    rw [List.foldl_append, List.foldl_cons]
  rw [heq, foldl_renderStep_const (depsOf k) post
    (renderStep (runRenders pre) k) hstep.1 hstep.2.1 hpost]
  exact hstep.2.2

/-- C1 witness: one not-ready render, then the three inputs resolve, then
two further renders with equal dependencies (one of them with `isScrubbing`
toggled): the callback fires exactly once. -/
theorem C1_witness :
    (∀ i ∈ [riNotReady],
      i.config = none ∨ i.player = none ∨ i.prevCtrl = none) ∧
    riReady.config.isSome = true ∧
    riReady.player.isSome = true ∧
    riReady.prevCtrl.isSome = true ∧
    (∀ i ∈ [riReady, riReadyScrub], depsOf i = depsOf riReady) ∧
    ((runRenders [riNotReady]).memoVal = none ∧
     (runRenders [riNotReady]).readyFires = [] ∧
     (runRenders ([riNotReady] ++ riReady ::
        [riReady, riReadyScrub])).readyFires.length = 1) :=
  ⟨by decide, by decide, by decide, by decide, by decide,
   C1_controllerReady_fires_exactly_once [riNotReady]
     [riReady, riReadyScrub] riReady (by decide) (by decide) (by decide)
     (by decide) (by decide)⟩

/-- C10: when the requested start timestamp is absent or exactly 0 (falsy in
JavaScript), the loaded lifecycle event triggers no seek at all, so epoch
second 0 cannot be deep-linked. -/
theorem C10_zero_or_absent_start_no_seek :
    ∀ controller : Option DynamicVideoController,
      onPlayerLoaded controller none = none ∧
      onPlayerLoaded controller (some 0) = none := by
  intro controller
  cases controller <;> simp [onPlayerLoaded]

end Frigate.DynamicVideo
